import Mathlib

/-!
Shallow embedding of `phoebe-gui/src/phoebe_gui_main.c`: the startup
bootstrap controller of the PHOEBE GUI.  The two functions with decision
logic are `parse_startup_line` (lines 110-155) and `main` (lines 157-217).
External collaborator calls (GTK, glade, libphoebe, the GUI helpers) are
modelled as trace events; the statuses they return are inputs of a run.
-/

namespace PhoebeGui

/-- Modelled from the spec: `SUCCESS`, the success status code of the
external phoebe library (declared in `phoebe/phoebe.h`, which is not among
these sources).  The spec calls it the "success status"; it is the zero
exit code. -/
def SUCCESS : Nat := 0

/-- Result of the external `phoebe_configure` call as `main` distinguishes
it: the three named error codes are compared by equality (lines 185-187,
199-204); `otherError` stands for any other non-success status the
collaborator interface allows. -/
inductive ConfigStatus where
  | success
  | errorSupportedFile
  | errorLegacyFile
  | errorNotFound
  | otherError
deriving DecidableEq, Repr

/-- Observable effects of the bootstrap sequence: the collaborator calls
made by `parse_startup_line` and `main`, plus standard output. -/
inductive Event where
  | printUsage
  | printVersion
  | guiOutput (status : Nat)
  | reinitTreeviews
  | setValuesToWidgets
  | registerOption (name : String) (dflt : Bool)
  | configure
  | guiInit
  | notice (title : String)
  | showConfigurationDialog
  | gtkMain
  | guiQuit
  | phoebeQuit
  | printDiag (status : Nat)
  | exitProcess (code : Nat)
deriving DecidableEq, Repr

/-- The process-wide session file state: the globals `PHOEBE_FILEFLAG` and
`PHOEBE_FILENAME` written at lines 148-149 (the spec's `SessionFileState`). -/
structure SessionFileState where
  fileFlag : Bool
  fileName : Option String
deriving DecidableEq, Repr

/-- Modelled from the spec: the initial process-wide session state, owned
by the external library and initialized at startup (`fileFlag` false, no
file name). -/
def initialSession : SessionFileState := ⟨false, none⟩

/-- The help test at lines 119-121. -/
def isHelpToken (a : String) : Bool :=
  a == "-h" || a == "-?" || a == "--help"

/-- The version test at lines 129-130. -/
def isVersionToken (a : String) : Bool :=
  a == "-v" || a == "--version"

/-- Negation of the test `argv[i][0] != '-'` at line 136: true when the
first character of the token is a dash.  The empty C string has first
character NUL, hence no dash. -/
def firstCharIsDash (a : String) : Bool :=
  a.data.head? == some '-'

/-- Outcome of `parse_startup_line`: the events it emitted, the session
state it left, and `some code` when it terminated the process. -/
structure ParseResult where
  trace : List Event
  session : SessionFileState
  exited : Option Nat
deriving DecidableEq, Repr

/-- `parse_startup_line` (lines 110-155), processing `argv[1..]` in order.
`load` is the external `phoebe_open_parameter_file`; the `Event.guiOutput`
event is the `phoebe_gui_output` of `phoebe_error (status)` at line 144.
`phoebe_quit` is modelled from the spec as terminating the process with
success status, so arguments after a help or version token are not
processed. -/
def parse_startup_line (load : String → Nat) :
    List String → SessionFileState → ParseResult
  | [], st => ⟨[], st, none⟩
  | a :: rest, st =>
    if isHelpToken a then
      ⟨[Event.printUsage, Event.phoebeQuit], st, some SUCCESS⟩
    else if isVersionToken a then
      ⟨[Event.printVersion, Event.phoebeQuit], st, some SUCCESS⟩
    else if firstCharIsDash a then
      parse_startup_line load rest st
    else if load a = SUCCESS then
      let r := parse_startup_line load rest ⟨true, some a⟩
      ⟨Event.reinitTreeviews :: Event.setValuesToWidgets :: r.trace,
        r.session, r.exited⟩
    else
      let r := parse_startup_line load rest st
      ⟨Event.guiOutput (load a) :: r.trace, r.session, r.exited⟩

/-- Inputs of one run of `main`: the statuses the external collaborators
return and the command-line tokens after the program name. -/
structure Input where
  initStatus : Nat
  configStatus : ConfigStatus
  args : List String
  load : String → Nat

/-- Outcome of one run of `main`. -/
structure RunResult where
  trace : List Event
  session : SessionFileState
  exitCode : Nat

/-- The two option registrations (lines 181-182), the `phoebe_configure`
call (line 184) and `phoebe_gui_init` (line 195), in source order. -/
def preEvents : List Event :=
  [Event.registerOption "GUI_CONFIRM_ON_OVERWRITE" true,
   Event.registerOption "GUI_BEEP_AFTER_PLOT_AND_FIT" false,
   Event.configure, Event.guiInit]

/-- The three `gui_notice` checks at lines 199-204, in source order. -/
def configNotices (s : ConfigStatus) : List Event :=
  (if s = ConfigStatus.errorNotFound then
    [Event.notice "Welcome to PHOEBE!"] else []) ++
  (if s = ConfigStatus.errorLegacyFile then
    [Event.notice "Importing legacy configuration file"] else []) ++
  (if s = ConfigStatus.errorSupportedFile then
    [Event.notice "Importing recent configuration file"] else [])

/-- The `configswitch` flag (lines 160 and 185-193). -/
def configswitch (s : ConfigStatus) : Bool :=
  s == ConfigStatus.errorSupportedFile ||
  s == ConfigStatus.errorLegacyFile ||
  s == ConfigStatus.errorNotFound

/-- `main` (lines 157-217).  Toolkit setup (gtk, glade) has no observable
effect in this model.  When `phoebe_init` fails, the diagnostic is printed
and `exit (0)` is called (lines 174-178).  When `parse_startup_line`
terminated the process (help or version token), nothing after it runs and
its code is the exit code; otherwise the run continues with the notices,
the optional settings dialog, the event loop and the teardown calls
`phoebe_gui_quit` then `phoebe_quit` (lines 212-214), and the process
reports `SUCCESS`. -/
def main (inp : Input) : RunResult :=
  if inp.initStatus ≠ SUCCESS then
    ⟨[Event.printDiag inp.initStatus, Event.exitProcess 0], initialSession, 0⟩
  else
    let r := parse_startup_line inp.load inp.args initialSession
    let tail : List Event :=
      if r.exited = none then
        configNotices inp.configStatus ++
        (if configswitch inp.configStatus then
          [Event.showConfigurationDialog] else []) ++
        [Event.gtkMain, Event.guiQuit, Event.phoebeQuit]
      else []
    ⟨preEvents ++ r.trace ++ tail, r.session, r.exited.getD SUCCESS⟩

/-- The spec's `ArgAction` (section 3). -/
inductive ArgAction where
  | help
  | version
  | unrecognized
  | paramFile (path : String)
deriving DecidableEq, Repr

/-- Classification rules of the spec's ArgumentParser (section 4.1),
written from the spec's words, to be compared with the code's behavior. -/
def specClassify (a : String) : ArgAction :=
  if a = "-h" ∨ a = "-?" ∨ a = "--help" then ArgAction.help
  else if a = "-v" ∨ a = "--version" then ArgAction.version
  else if a.data.head? = some '-' then ArgAction.unrecognized
  else ArgAction.paramFile a

/-- Per-action effect of one token, written from the spec's words (section
4.2 step 4), to be compared with the code's behavior on that token. -/
def specStep (load : String → Nat) (rest : List String)
    (st : SessionFileState) : ArgAction → ParseResult
  | ArgAction.help => ⟨[Event.printUsage, Event.phoebeQuit], st, some SUCCESS⟩
  | ArgAction.version =>
      ⟨[Event.printVersion, Event.phoebeQuit], st, some SUCCESS⟩
  | ArgAction.unrecognized => parse_startup_line load rest st
  | ArgAction.paramFile p =>
      if load p = SUCCESS then
        let r := parse_startup_line load rest ⟨true, some p⟩
        ⟨Event.reinitTreeviews :: Event.setValuesToWidgets :: r.trace,
          r.session, r.exited⟩
      else
        let r := parse_startup_line load rest st
        ⟨Event.guiOutput (load p) :: r.trace, r.session, r.exited⟩

/-- The spec's notice map (section 4.2 step 5), from the spec's words. -/
def specNoticeFor : ConfigStatus → List Event
  | ConfigStatus.errorNotFound => [Event.notice "Welcome to PHOEBE!"]
  | ConfigStatus.errorLegacyFile =>
      [Event.notice "Importing legacy configuration file"]
  | ConfigStatus.errorSupportedFile =>
      [Event.notice "Importing recent configuration file"]
  | _ => []

/-- The spec's dialog rule (section 3 invariant): the settings dialog opens
iff the status is not Current, from the spec's words. -/
def specDialogFor (s : ConfigStatus) : List Event :=
  if s ≠ ConfigStatus.success then [Event.showConfigurationDialog] else []

/-- Events that `parse_startup_line` can emit. -/
def Event.isParseEvent : Event → Bool
  | Event.printUsage => true
  | Event.printVersion => true
  | Event.phoebeQuit => true
  | Event.reinitTreeviews => true
  | Event.setValuesToWidgets => true
  | Event.guiOutput _ => true
  | _ => false

/-- A diagnostic on the message-output channel (`phoebe_gui_output`). -/
def Event.isDiag : Event → Bool
  | Event.guiOutput _ => true
  | _ => false

/-- Events one parameter-file token produces: a UI refresh pair on success,
one diagnostic on failure. -/
def tokenEvents (load : String → Nat) (a : String) : List Event :=
  if load a = SUCCESS then [Event.reinitTreeviews, Event.setValuesToWidgets]
  else [Event.guiOutput (load a)]

/-- Concatenated per-token events of a list of parameter-file tokens. -/
def tokensTrace (load : String → Nat) : List String → List Event
  | [] => []
  | a :: rest => tokenEvents load a ++ tokensTrace load rest

/-- The last path in the list that loads successfully, if any. -/
def lastLoaded (load : String → Nat) : List String → Option String
  | [] => none
  | a :: rest =>
      match lastLoaded load rest with
      | some p => some p
      | none => if load a = SUCCESS then some a else none

/-- How many paths in the list fail to load. -/
def failCount (load : String → Nat) : List String → Nat
  | [] => 0
  | a :: rest => (if load a = SUCCESS then 0 else 1) + failCount load rest

example : parse_startup_line (fun _ => 0) ["m.phoebe"] initialSession =
    ⟨[Event.reinitTreeviews, Event.setValuesToWidgets],
      ⟨true, some "m.phoebe"⟩, none⟩ := by decide

example : parse_startup_line (fun _ => 1) ["-x", "-v", "m"] initialSession =
    ⟨[Event.printVersion, Event.phoebeQuit], initialSession,
      some SUCCESS⟩ := by decide

theorem isHelpToken_iff (a : String) :
    isHelpToken a = true ↔ (a = "-h" ∨ a = "-?" ∨ a = "--help") := by
  simp [isHelpToken, or_assoc]

theorem isVersionToken_iff (a : String) :
    isVersionToken a = true ↔ (a = "-v" ∨ a = "--version") := by
  simp [isVersionToken]

theorem firstCharIsDash_iff (a : String) :
    firstCharIsDash a = true ↔ a.data.head? = some '-' := by
  simp [firstCharIsDash]

theorem help_version_disjoint (a : String) (h : isVersionToken a = true) :
    isHelpToken a = false := by
  rcases (isVersionToken_iff a).mp h with h1 | h1 <;> subst h1 <;> decide

/-- Every event `parse_startup_line` emits is a parse event. -/
theorem parse_trace_events (load : String → Nat) (args : List String) :
    ∀ (st : SessionFileState) (e : Event),
      e ∈ (parse_startup_line load args st).trace → e.isParseEvent = true := by
  induction args with
  | nil =>
    intro st e he
    simp [parse_startup_line] at he
  | cons a rest ih =>
    intro st e he
    simp only [parse_startup_line] at he
    split at he
    · simp only [List.mem_cons, List.mem_singleton] at he
      rcases he with h | h | h <;> (try subst h) <;> simp [Event.isParseEvent] at *
    · split at he
      · simp only [List.mem_cons, List.mem_singleton] at he
        rcases he with h | h | h <;> (try subst h) <;>
          simp [Event.isParseEvent] at *
      · split at he
        · exact ih st e he
        · split at he
          · simp only [List.mem_cons] at he
            rcases he with h | h | h
            · subst h; rfl
            · subst h; rfl
            · exact ih _ e h
          · simp only [List.mem_cons] at he
            rcases he with h | h
            · subst h; rfl
            · exact ih st e h

theorem parse_no_dialog (load : String → Nat) (args : List String)
    (st : SessionFileState) :
    Event.showConfigurationDialog ∉ (parse_startup_line load args st).trace := by
  intro h
  have := parse_trace_events load args st _ h
  simp [Event.isParseEvent] at this

theorem parse_no_notice (load : String → Nat) (args : List String)
    (st : SessionFileState) (t : String) :
    Event.notice t ∉ (parse_startup_line load args st).trace := by
  intro h
  have := parse_trace_events load args st _ h
  simp [Event.isParseEvent] at this

/-- Unfolding of `main` when initialization fails. -/
theorem main_init_fail (inp : Input) (h : inp.initStatus ≠ SUCCESS) :
    main inp = ⟨[Event.printDiag inp.initStatus, Event.exitProcess 0],
      initialSession, 0⟩ := by
  simp [main, h]

/-- Unfolding of `main` when initialization succeeds and argument parsing
does not terminate the process. -/
theorem main_noexit (inp : Input) (h0 : inp.initStatus = SUCCESS)
    (hne : (parse_startup_line inp.load inp.args initialSession).exited = none) :
    main inp =
      ⟨preEvents ++ (parse_startup_line inp.load inp.args initialSession).trace ++
        (configNotices inp.configStatus ++
          (if configswitch inp.configStatus then
            [Event.showConfigurationDialog] else []) ++
          [Event.gtkMain, Event.guiQuit, Event.phoebeQuit]),
        (parse_startup_line inp.load inp.args initialSession).session,
        SUCCESS⟩ := by
  simp [main, h0, hne]

/-- Unfolding of `main` when argument parsing terminated the process. -/
theorem main_exit (inp : Input) (h0 : inp.initStatus = SUCCESS) (code : Nat)
    (hx : (parse_startup_line inp.load inp.args initialSession).exited =
      some code) :
    main inp =
      ⟨preEvents ++ (parse_startup_line inp.load inp.args initialSession).trace,
        (parse_startup_line inp.load inp.args initialSession).session,
        code⟩ := by
  simp [main, h0, hx]

/-- A token the spec classifies as a parameter file fails all three tests
the source applies to it. -/
theorem specClassify_paramFile_tests (a : String)
    (h : specClassify a = ArgAction.paramFile a) :
    isHelpToken a = false ∧ isVersionToken a = false ∧
      firstCharIsDash a = false := by
  by_cases h1 : a = "-h" ∨ a = "-?" ∨ a = "--help"
  · exact absurd h (by simp [specClassify, h1])
  · by_cases h2 : a = "-v" ∨ a = "--version"
    · exact absurd h (by simp [specClassify, h1, h2])
    · by_cases h3 : a.data.head? = some '-'
      · exact absurd h (by simp [specClassify, h1, h2, h3])
      · exact ⟨Bool.eq_false_iff.mpr (fun hh => h1 ((isHelpToken_iff a).mp hh)),
          Bool.eq_false_iff.mpr (fun hh => h2 ((isVersionToken_iff a).mp hh)),
          Bool.eq_false_iff.mpr (fun hh => h3 ((firstCharIsDash_iff a).mp hh))⟩

/-- C2: the argument parser handles each token, in input order, exactly as
the spec's classification rules prescribe: processing a token is the
per-action effect of its `specClassify` class, with the rest of the tokens
processed afterwards (`Help` for `-h`, `-?`, `--help`; `Version` for `-v`,
`--version`; no action for any other token whose first character is `-`;
`ParamFile` for every remaining token). -/
theorem C2_classification (load : String → Nat) (a : String)
    (rest : List String) (st : SessionFileState) :
    parse_startup_line load (a :: rest) st =
      specStep load rest st (specClassify a) := by
  by_cases h1 : a = "-h" ∨ a = "-?" ∨ a = "--help"
  · simp [parse_startup_line, specClassify, specStep, h1,
      (isHelpToken_iff a).mpr h1]
  · have hh : isHelpToken a = false :=
      Bool.eq_false_iff.mpr (fun hx => h1 ((isHelpToken_iff a).mp hx))
    by_cases h2 : a = "-v" ∨ a = "--version"
    · simp [parse_startup_line, specClassify, specStep, h1, h2, hh,
        (isVersionToken_iff a).mpr h2]
    · have hv : isVersionToken a = false :=
        Bool.eq_false_iff.mpr (fun hx => h2 ((isVersionToken_iff a).mp hx))
      by_cases h3 : a.data.head? = some '-'
      · simp [parse_startup_line, specClassify, specStep, h1, h2, h3, hh, hv,
          (firstCharIsDash_iff a).mpr h3]
      · have hd : firstCharIsDash a = false :=
          Bool.eq_false_iff.mpr (fun hx => h3 ((firstCharIsDash_iff a).mp hx))
        simp [parse_startup_line, specClassify, specStep, h1, h2, h3, hh, hv, hd]

/-- C5: when a parameter file fails to load, the error is reported through
the message-output channel (`phoebe_gui_output`), the session state is
passed on exactly as it was (no partial mutation of `fileFlag` or
`fileName`), and processing continues with the remaining arguments. -/
theorem C5_load_failure_nonfatal (load : String → Nat) (a : String)
    (rest : List String) (st : SessionFileState)
    (ha : specClassify a = ArgAction.paramFile a)
    (hf : load a ≠ SUCCESS) :
    parse_startup_line load (a :: rest) st =
      ⟨Event.guiOutput (load a) :: (parse_startup_line load rest st).trace,
        (parse_startup_line load rest st).session,
        (parse_startup_line load rest st).exited⟩ := by
  obtain ⟨hh, hv, hd⟩ := specClassify_paramFile_tests a ha
  simp [parse_startup_line, hh, hv, hd, hf]

theorem C5_load_failure_nonfatal_witness :
    parse_startup_line (fun s => if s = "ok.phoebe" then 0 else 3)
      ["bad.phoebe", "ok.phoebe"] initialSession =
      ⟨Event.guiOutput 3 ::
        (parse_startup_line (fun s => if s = "ok.phoebe" then 0 else 3)
          ["ok.phoebe"] initialSession).trace,
        (parse_startup_line (fun s => if s = "ok.phoebe" then 0 else 3)
          ["ok.phoebe"] initialSession).session,
        (parse_startup_line (fun s => if s = "ok.phoebe" then 0 else 3)
          ["ok.phoebe"] initialSession).exited⟩ :=
  C5_load_failure_nonfatal (fun s => if s = "ok.phoebe" then 0 else 3)
    "bad.phoebe" ["ok.phoebe"] initialSession (by decide) (by decide)

/-- C6: on every run whose engine initialization succeeds, the two GUI
options `GUI_CONFIRM_ON_OVERWRITE` (default true) and
`GUI_BEEP_AFTER_PLOT_AND_FIT` (default false) are registered, in that
order, before the configuration resolution call, whatever the eventual
configuration status and arguments are. -/
theorem C6_registration_before_configure (inp : Input)
    (h0 : inp.initStatus = SUCCESS) :
    ∃ rest : List Event, (main inp).trace =
      Event.registerOption "GUI_CONFIRM_ON_OVERWRITE" true ::
      Event.registerOption "GUI_BEEP_AFTER_PLOT_AND_FIT" false ::
      Event.configure :: rest := by
  rcases hx : (parse_startup_line inp.load inp.args initialSession).exited with
    _ | code
  · rw [main_noexit inp h0 hx]
    refine ⟨Event.guiInit ::
      ((parse_startup_line inp.load inp.args initialSession).trace ++
        (configNotices inp.configStatus ++
          ((if configswitch inp.configStatus then
            [Event.showConfigurationDialog] else []) ++
            [Event.gtkMain, Event.guiQuit, Event.phoebeQuit]))), ?_⟩
    simp [preEvents]
  · rw [main_exit inp h0 code hx]
    refine ⟨Event.guiInit ::
      (parse_startup_line inp.load inp.args initialSession).trace, ?_⟩
    simp [preEvents]

theorem C6_registration_before_configure_witness :
    ∃ rest : List Event,
      (main ⟨SUCCESS, ConfigStatus.success, [], fun _ => SUCCESS⟩).trace =
        Event.registerOption "GUI_CONFIRM_ON_OVERWRITE" true ::
        Event.registerOption "GUI_BEEP_AFTER_PLOT_AND_FIT" false ::
        Event.configure :: rest :=
  C6_registration_before_configure
    ⟨SUCCESS, ConfigStatus.success, [], fun _ => SUCCESS⟩ rfl

/-- C7 counterexample: on a concrete run that reaches the event loop, the
GUI teardown `phoebe_gui_quit` runs before the engine teardown
`phoebe_quit`, so the claimed order (engine first, GUI second) is false. -/
theorem C7_counterexample_engine_not_first :
    (main ⟨SUCCESS, ConfigStatus.success, [], fun _ => SUCCESS⟩).trace =
      preEvents ++ [Event.gtkMain, Event.guiQuit, Event.phoebeQuit] ∧
    ¬ ((main ⟨SUCCESS, ConfigStatus.success, [],
          fun _ => SUCCESS⟩).trace.indexOf Event.phoebeQuit <
        (main ⟨SUCCESS, ConfigStatus.success, [],
          fun _ => SUCCESS⟩).trace.indexOf Event.guiQuit) := by
  constructor
  · simp [main, parse_startup_line, configNotices, configswitch]
  · decide

/-- C7 (amended): when the host event loop returns, teardown of the GUI
subsystem (`phoebe_gui_quit`) runs first and teardown of the scientific
engine (`phoebe_quit`) runs second, whenever the run reaches the event
loop. -/
theorem C7_teardown_order (inp : Input) (h0 : inp.initStatus = SUCCESS)
    (hne : (parse_startup_line inp.load inp.args initialSession).exited =
      none) :
    ∃ pre : List Event, (main inp).trace =
      pre ++ [Event.gtkMain, Event.guiQuit, Event.phoebeQuit] := by
  rw [main_noexit inp h0 hne]
  refine ⟨preEvents ++
    (parse_startup_line inp.load inp.args initialSession).trace ++
    (configNotices inp.configStatus ++
      (if configswitch inp.configStatus then
        [Event.showConfigurationDialog] else [])), ?_⟩
  simp

theorem C7_teardown_order_witness :
    ∃ pre : List Event,
      (main ⟨SUCCESS, ConfigStatus.errorNotFound, ["-x"],
        fun _ => SUCCESS⟩).trace =
        pre ++ [Event.gtkMain, Event.guiQuit, Event.phoebeQuit] :=
  C7_teardown_order
    ⟨SUCCESS, ConfigStatus.errorNotFound, ["-x"], fun _ => SUCCESS⟩
    rfl (by decide)

/-- C8: when engine initialization fails, the process prints a diagnostic
and exits at once: no option registration, no configuration resolution, no
GUI initialization, no argument processing, no notice, no dialog, no event
loop and no teardown appears in the run. -/
theorem C8_fatal_init_failure (inp : Input) (h : inp.initStatus ≠ SUCCESS) :
    main inp = ⟨[Event.printDiag inp.initStatus, Event.exitProcess 0],
      initialSession, 0⟩ ∧
    (∀ n d, Event.registerOption n d ∉ (main inp).trace) ∧
    Event.configure ∉ (main inp).trace ∧
    Event.guiInit ∉ (main inp).trace ∧
    (∀ s, Event.guiOutput s ∉ (main inp).trace) ∧
    Event.printUsage ∉ (main inp).trace ∧
    Event.printVersion ∉ (main inp).trace ∧
    Event.reinitTreeviews ∉ (main inp).trace ∧
    (∀ t, Event.notice t ∉ (main inp).trace) ∧
    Event.showConfigurationDialog ∉ (main inp).trace ∧
    Event.gtkMain ∉ (main inp).trace ∧
    Event.guiQuit ∉ (main inp).trace ∧
    Event.phoebeQuit ∉ (main inp).trace := by
  refine ⟨main_init_fail inp h, ?_, ?_, ?_, ?_, ?_, ?_, ?_, ?_, ?_, ?_, ?_, ?_⟩
    <;> simp [main_init_fail inp h]

theorem C8_fatal_init_failure_witness :
    main ⟨7, ConfigStatus.success, ["m.phoebe"], fun _ => SUCCESS⟩ =
      ⟨[Event.printDiag 7, Event.exitProcess 0], initialSession, 0⟩ :=
  (C8_fatal_init_failure
    ⟨7, ConfigStatus.success, ["m.phoebe"], fun _ => SUCCESS⟩ (by decide)).1

/-- C9: a `phoebe_configure` outcome other than success and the three
classified conditions makes the run identical to the success (Current)
run: no notice, no settings dialog, and, with no arguments, no diagnostic
of any kind. -/
theorem C9_other_config_error_silent (args : List String)
    (load : String → Nat) :
    main ⟨SUCCESS, ConfigStatus.otherError, args, load⟩ =
      main ⟨SUCCESS, ConfigStatus.success, args, load⟩ ∧
    (∀ t, Event.notice t ∉
      (main ⟨SUCCESS, ConfigStatus.otherError, args, load⟩).trace) ∧
    Event.showConfigurationDialog ∉
      (main ⟨SUCCESS, ConfigStatus.otherError, args, load⟩).trace ∧
    (main ⟨SUCCESS, ConfigStatus.otherError, [], load⟩).trace =
      preEvents ++ [Event.gtkMain, Event.guiQuit, Event.phoebeQuit] := by
  refine ⟨?_, ?_, ?_, ?_⟩
  · simp [main, configNotices, configswitch]
  · intro t
    rcases hx : (parse_startup_line load args initialSession).exited with
      _ | code
    · rw [main_noexit ⟨SUCCESS, ConfigStatus.otherError, args, load⟩ rfl hx]
      simp [preEvents, configNotices, configswitch,
        parse_no_notice load args initialSession t]
    · rw [main_exit ⟨SUCCESS, ConfigStatus.otherError, args, load⟩ rfl code hx]
      simp [preEvents, parse_no_notice load args initialSession t]
  · rcases hx : (parse_startup_line load args initialSession).exited with
      _ | code
    · rw [main_noexit ⟨SUCCESS, ConfigStatus.otherError, args, load⟩ rfl hx]
      simp [preEvents, configNotices, configswitch,
        parse_no_dialog load args initialSession]
    · rw [main_exit ⟨SUCCESS, ConfigStatus.otherError, args, load⟩ rfl code hx]
      simp [preEvents, parse_no_dialog load args initialSession]
  · simp [main, parse_startup_line, configNotices, configswitch]

/-- C10: on fatal engine-initialization failure the exit status is 0, the
same status a normal run reports, so a caller inspecting the exit status
cannot tell the two apart. -/
theorem C10_fatal_failure_exit_status (s : Nat) (cs : ConfigStatus)
    (args : List String) (load : String → Nat) (h : s ≠ SUCCESS) :
    (main ⟨s, cs, args, load⟩).exitCode = 0 ∧
    (main ⟨SUCCESS, ConfigStatus.success, [],
      fun _ => SUCCESS⟩).exitCode = 0 := by
  constructor
  · rw [main_init_fail ⟨s, cs, args, load⟩ h]
  · rfl

/-- C1: in a run that reaches the notice and dialog stage, for every
classified configuration status the trace places exactly the spec-mapped
notice list and then the dialog list right before the event loop (so any
notice precedes the dialog), the settings dialog is opened iff the status
is not Current (success), and the notices emitted are exactly the one the
spec maps to the status. -/
theorem C1_notice_and_dialog_mapping (s : ConfigStatus)
    (hs : s ≠ ConfigStatus.otherError) (args : List String)
    (load : String → Nat)
    (hne : (parse_startup_line load args initialSession).exited = none) :
    (main ⟨SUCCESS, s, args, load⟩).trace =
      preEvents ++ (parse_startup_line load args initialSession).trace ++
      (specNoticeFor s ++ specDialogFor s ++
        [Event.gtkMain, Event.guiQuit, Event.phoebeQuit]) ∧
    (Event.showConfigurationDialog ∈ (main ⟨SUCCESS, s, args, load⟩).trace ↔
      s ≠ ConfigStatus.success) ∧
    (∀ t, Event.notice t ∈ (main ⟨SUCCESS, s, args, load⟩).trace ↔
      Event.notice t ∈ specNoticeFor s) := by
  have hm := main_noexit ⟨SUCCESS, s, args, load⟩ rfl hne
  have hnd := parse_no_dialog load args initialSession
  have hnn := parse_no_notice load args initialSession
  rw [hm]
  cases s with
  | otherError => exact absurd rfl hs
  | success =>
    refine ⟨by simp [configNotices, configswitch, specNoticeFor, specDialogFor],
      ?_, ?_⟩
    · simp [preEvents, configNotices, configswitch, hnd]
    · intro t
      simp [preEvents, configNotices, configswitch, specNoticeFor, hnn t]
  | errorNotFound =>
    refine ⟨by simp [configNotices, configswitch, specNoticeFor, specDialogFor],
      ?_, ?_⟩
    · simp [preEvents, configNotices, configswitch]
    · intro t
      simp [preEvents, configNotices, configswitch, specNoticeFor, hnn t]
  | errorLegacyFile =>
    refine ⟨by simp [configNotices, configswitch, specNoticeFor, specDialogFor],
      ?_, ?_⟩
    · simp [preEvents, configNotices, configswitch]
    · intro t
      simp [preEvents, configNotices, configswitch, specNoticeFor, hnn t]
  | errorSupportedFile =>
    refine ⟨by simp [configNotices, configswitch, specNoticeFor, specDialogFor],
      ?_, ?_⟩
    · simp [preEvents, configNotices, configswitch]
    · intro t
      simp [preEvents, configNotices, configswitch, specNoticeFor, hnn t]

theorem C1_notice_and_dialog_mapping_witness :
    (main ⟨SUCCESS, ConfigStatus.errorNotFound, [],
      fun _ => SUCCESS⟩).trace =
      preEvents ++
      (parse_startup_line (fun _ => SUCCESS) [] initialSession).trace ++
      (specNoticeFor ConfigStatus.errorNotFound ++
        specDialogFor ConfigStatus.errorNotFound ++
        [Event.gtkMain, Event.guiQuit, Event.phoebeQuit]) :=
  (C1_notice_and_dialog_mapping ConfigStatus.errorNotFound (by decide)
    [] (fun _ => SUCCESS) (by decide)).1

theorem C10_fatal_failure_exit_status_witness :
    (main ⟨7, ConfigStatus.success, ["m.phoebe"],
      fun _ => SUCCESS⟩).exitCode = 0 ∧
    (main ⟨SUCCESS, ConfigStatus.success, [],
      fun _ => SUCCESS⟩).exitCode = 0 :=
  C10_fatal_failure_exit_status 7 ConfigStatus.success ["m.phoebe"]
    (fun _ => SUCCESS) (by decide)

/-- C4: on a sequence of parameter-file tokens, parsing never terminates
the process, the trace is the concatenation of each token's events (a UI
refresh pair for every successful load, one diagnostic for every failing
one), and the final session state carries the last successfully loaded
path with the flag set — or is unchanged when no load succeeds. -/
theorem C4_last_successful_load (load : String → Nat) (args : List String)
    (st : SessionFileState)
    (hp : ∀ a ∈ args, specClassify a = ArgAction.paramFile a) :
    (parse_startup_line load args st).exited = none ∧
    (parse_startup_line load args st).trace = tokensTrace load args ∧
    (parse_startup_line load args st).session =
      (match lastLoaded load args with
        | some p => ⟨true, some p⟩
        | none => st) ∧
    ((parse_startup_line load args st).trace.filter Event.isDiag).length =
      failCount load args := by
  induction args generalizing st with
  | nil =>
    simp [parse_startup_line, tokensTrace, lastLoaded, failCount]
  | cons a rest ih =>
    obtain ⟨hh, hv, hd⟩ :=
      specClassify_paramFile_tests a (hp a (List.mem_cons_self a rest))
    have hp2 : ∀ b ∈ rest, specClassify b = ArgAction.paramFile b :=
      fun b hb => hp b (List.mem_cons_of_mem a hb)
    by_cases hl : load a = SUCCESS
    · have heq : parse_startup_line load (a :: rest) st =
        ⟨Event.reinitTreeviews :: Event.setValuesToWidgets ::
          (parse_startup_line load rest ⟨true, some a⟩).trace,
          (parse_startup_line load rest ⟨true, some a⟩).session,
          (parse_startup_line load rest ⟨true, some a⟩).exited⟩ := by
        simp [parse_startup_line, hh, hv, hd, hl]
      obtain ⟨ih1, ih2, ih3, ih4⟩ := ih ⟨true, some a⟩ hp2
      rw [heq]
      refine ⟨ih1, ?_, ?_, ?_⟩
      · simp [tokensTrace, tokenEvents, hl, ih2]
      · rcases hrest : lastLoaded load rest with _ | p
        · rw [ih3, hrest]
          simp [lastLoaded, hrest, hl]
        · rw [ih3, hrest]
          simp [lastLoaded, hrest]
      · simp [List.filter, Event.isDiag, ih4, failCount, hl]
    · have heq : parse_startup_line load (a :: rest) st =
        ⟨Event.guiOutput (load a) ::
          (parse_startup_line load rest st).trace,
          (parse_startup_line load rest st).session,
          (parse_startup_line load rest st).exited⟩ := by
        simp [parse_startup_line, hh, hv, hd, hl]
      obtain ⟨ih1, ih2, ih3, ih4⟩ := ih st hp2
      rw [heq]
      refine ⟨ih1, ?_, ?_, ?_⟩
      · simp [tokensTrace, tokenEvents, hl, ih2]
      · rcases hrest : lastLoaded load rest with _ | p
        · rw [ih3, hrest]
          simp [lastLoaded, hrest, hl]
        · rw [ih3, hrest]
          simp [lastLoaded, hrest]
      · simp [List.filter, Event.isDiag, ih4, failCount, hl, Nat.add_comm]

theorem C4_last_successful_load_witness :
    (parse_startup_line (fun a => if a = "model.phoebe" then SUCCESS else 2)
      ["badpath.phoebe", "model.phoebe"] initialSession).session =
      ⟨true, some "model.phoebe"⟩ ∧
    ((parse_startup_line (fun a => if a = "model.phoebe" then SUCCESS else 2)
      ["badpath.phoebe", "model.phoebe"]
        initialSession).trace.filter Event.isDiag).length = 1 := by
  have h := C4_last_successful_load
    (fun a => if a = "model.phoebe" then SUCCESS else 2)
    ["badpath.phoebe", "model.phoebe"] initialSession (by decide)
  refine ⟨?_, ?_⟩
  · rw [h.2.2.1]
    decide
  · rw [h.2.2.2]
    decide

/-- When the arguments are a prefix free of help and version tokens, then a
help or version token, then anything: the prefix is processed as usual, the
token's text is printed, the process terminates with success status, and
the suffix is never processed. -/
theorem parse_early_exit (load : String → Nat) (pre : List String)
    (tok : String) (post : List String) (st : SessionFileState)
    (hpre : ∀ b ∈ pre, isHelpToken b = false ∧ isVersionToken b = false)
    (htok : isHelpToken tok = true ∨ isVersionToken tok = true) :
    parse_startup_line load (pre ++ tok :: post) st =
      ⟨(parse_startup_line load pre st).trace ++
        [(if isHelpToken tok then Event.printUsage else Event.printVersion),
          Event.phoebeQuit],
        (parse_startup_line load pre st).session, some SUCCESS⟩ := by
  revert hpre
  induction pre generalizing st with
  | nil =>
    intro _
    rcases htok with h | h
    · simp [parse_startup_line, h]
    · have hh := help_version_disjoint tok h
      simp [parse_startup_line, h, hh]
  | cons b pre ih =>
    intro hpre
    obtain ⟨hbh, hbv⟩ := hpre b (List.mem_cons_self b pre)
    have hpre2 : ∀ c ∈ pre, isHelpToken c = false ∧ isVersionToken c = false :=
      fun c hc => hpre c (List.mem_cons_of_mem b hc)
    simp only [List.cons_append]
    by_cases hdash : firstCharIsDash b = true
    · have e1 : parse_startup_line load (b :: (pre ++ tok :: post)) st =
        parse_startup_line load (pre ++ tok :: post) st := by
        simp [parse_startup_line, hbh, hbv, hdash]
      have e2 : parse_startup_line load (b :: pre) st =
        parse_startup_line load pre st := by
        simp [parse_startup_line, hbh, hbv, hdash]
      rw [e1, e2]
      exact ih st hpre2
    · by_cases hload : load b = SUCCESS
      · have e1 : parse_startup_line load (b :: (pre ++ tok :: post)) st =
          ⟨Event.reinitTreeviews :: Event.setValuesToWidgets ::
            (parse_startup_line load (pre ++ tok :: post)
              ⟨true, some b⟩).trace,
            (parse_startup_line load (pre ++ tok :: post)
              ⟨true, some b⟩).session,
            (parse_startup_line load (pre ++ tok :: post)
              ⟨true, some b⟩).exited⟩ := by
          simp [parse_startup_line, hbh, hbv, hdash, hload]
        have e2 : parse_startup_line load (b :: pre) st =
          ⟨Event.reinitTreeviews :: Event.setValuesToWidgets ::
            (parse_startup_line load pre ⟨true, some b⟩).trace,
            (parse_startup_line load pre ⟨true, some b⟩).session,
            (parse_startup_line load pre ⟨true, some b⟩).exited⟩ := by
          simp [parse_startup_line, hbh, hbv, hdash, hload]
        rw [e1, e2, ih ⟨true, some b⟩ hpre2]
        simp
      · have e1 : parse_startup_line load (b :: (pre ++ tok :: post)) st =
          ⟨Event.guiOutput (load b) ::
            (parse_startup_line load (pre ++ tok :: post) st).trace,
            (parse_startup_line load (pre ++ tok :: post) st).session,
            (parse_startup_line load (pre ++ tok :: post) st).exited⟩ := by
          simp [parse_startup_line, hbh, hbv, hdash, hload]
        have e2 : parse_startup_line load (b :: pre) st =
          ⟨Event.guiOutput (load b) ::
            (parse_startup_line load pre st).trace,
            (parse_startup_line load pre st).session,
            (parse_startup_line load pre st).exited⟩ := by
          simp [parse_startup_line, hbh, hbv, hdash, hload]
        rw [e1, e2, ih st hpre2]
        simp

/-- C3: when the first help or version token sits at position `i`, the
actions of all arguments before position `i` run in order (the run is that
of the length-`i` prefix), the token's usage or version text is printed,
the process terminates with success status, and no argument after position
`i` is processed; in the whole run the exit code is `SUCCESS` whatever the
configuration status. -/
theorem C3_help_version_terminate (load : String → Nat)
    (args : List String) (st : SessionFileState) (i : Nat)
    (hi : i < args.length)
    (hterm : isHelpToken (args.get ⟨i, hi⟩) = true ∨
      isVersionToken (args.get ⟨i, hi⟩) = true)
    (hbefore : ∀ j (hj : j < i),
      isHelpToken (args.get ⟨j, Nat.lt_trans hj hi⟩) = false ∧
      isVersionToken (args.get ⟨j, Nat.lt_trans hj hi⟩) = false) :
    parse_startup_line load args st =
      ⟨(parse_startup_line load (args.take i) st).trace ++
        [(if isHelpToken (args.get ⟨i, hi⟩) then Event.printUsage
          else Event.printVersion), Event.phoebeQuit],
        (parse_startup_line load (args.take i) st).session, some SUCCESS⟩ ∧
    ∀ cs : ConfigStatus,
      (main ⟨SUCCESS, cs, args, load⟩).exitCode = SUCCESS := by
  have hdecomp : args.take i ++ args.get ⟨i, hi⟩ :: args.drop (i + 1) =
      args := by
    have h1 : args.get ⟨i, hi⟩ :: args.drop (i + 1) = args.drop i :=
      List.getElem_cons_drop args i hi
    rw [h1, List.take_append_drop]
  have hpre : ∀ b ∈ args.take i,
      isHelpToken b = false ∧ isVersionToken b = false := by
    intro b hb
    rw [List.mem_take_iff_getElem] at hb
    obtain ⟨k, hm, hkb⟩ := hb
    have hk1 : k < i := (lt_min_iff.mp hm).1
    constructor
    · rw [← hkb]
      exact (hbefore k hk1).1
    · rw [← hkb]
      exact (hbefore k hk1).2
  have key : ∀ st2 : SessionFileState, parse_startup_line load args st2 =
      ⟨(parse_startup_line load (args.take i) st2).trace ++
        [(if isHelpToken (args.get ⟨i, hi⟩) then Event.printUsage
          else Event.printVersion), Event.phoebeQuit],
        (parse_startup_line load (args.take i) st2).session,
        some SUCCESS⟩ := by
    intro st2
    conv_lhs => rw [← hdecomp]
    exact parse_early_exit load (args.take i) (args.get ⟨i, hi⟩)
      (args.drop (i + 1)) st2 hpre hterm
  refine ⟨key st, ?_⟩
  intro cs
  have hx : (parse_startup_line load args initialSession).exited =
      some SUCCESS := by
    rw [key initialSession]
  rw [main_exit ⟨SUCCESS, cs, args, load⟩ rfl SUCCESS hx]

theorem C3_help_version_terminate_witness :
    parse_startup_line (fun _ => 5) ["data.phoebe", "--version", "zzz"]
      initialSession =
      ⟨[Event.guiOutput 5, Event.printVersion, Event.phoebeQuit],
        initialSession, some SUCCESS⟩ ∧
    (main ⟨SUCCESS, ConfigStatus.success,
      ["data.phoebe", "--version", "zzz"], fun _ => 5⟩).exitCode =
      SUCCESS := by
  have h := C3_help_version_terminate (fun _ => 5)
    ["data.phoebe", "--version", "zzz"] initialSession 1 (by decide)
    (Or.inr (by decide)) (by decide)
  refine ⟨?_, h.2 ConfigStatus.success⟩
  rw [h.1]
  decide

end PhoebeGui
